import Mathlib

/-!
Shallow embedding of the SVG chart-rendering module (`graphs.js`) and the
profile statistics helpers (`calculateTotalXP`, `calculateSuccessRate`) of the
dashboard repository, together with theorems settling the specification's
claims about them.

Conventions of the embedding:
* JavaScript numbers that can become `NaN`/`Infinity` through division are
  modelled by `JsNum` (a rational carrying explicit `nan`/`posInf`/`negInf`
  states with IEEE-754 propagation rules for the operations the code uses).
  Quantities that stay finite on every code path are plain `ℚ`/`ℤ`.
* `document.getElementById` possibly returning `null` is modelled by an
  `Option Container` argument; assigning `innerHTML` on `null` throws a
  `TypeError`, modelled by `Except JsError`.
* Each render entry point returns `RenderOut payload`: either the placeholder
  message it writes into the container, or the data-dependent drawing payload
  of the chart branch.
* `Array.prototype.sort` with the comparator `(a, b) => b[1] - a[1]` is a
  stable descending sort; the unique stable result is computed by
  `List.insertionSort` with the matching relation.
* Trigonometric geometry (`polarToCartesian` and the slice paths) is over `ℝ`;
  angles, which the call sites always compute exactly, are `ℚ`.
-/

namespace GraphsSpec

/-- A JavaScript number as produced by the arithmetic in `graphs.js`:
either a finite (rational) value or one of the IEEE-754 special values. -/
inductive JsNum where
  | nan : JsNum
  | posInf : JsNum
  | negInf : JsNum
  | num : ℚ → JsNum
deriving DecidableEq

namespace JsNum

/-- IEEE-754 addition on the values reachable in `graphs.js`. -/
def add : JsNum → JsNum → JsNum
  | nan, _ => nan
  | _, nan => nan
  | posInf, negInf => nan
  | negInf, posInf => nan
  | posInf, _ => posInf
  | _, posInf => posInf
  | negInf, _ => negInf
  | _, negInf => negInf
  | num a, num b => num (a + b)

/-- IEEE-754 negation. -/
def neg : JsNum → JsNum
  | nan => nan
  | posInf => negInf
  | negInf => posInf
  | num a => num (-a)

/-- IEEE-754 subtraction. -/
def sub (a b : JsNum) : JsNum := a.add b.neg

/-- IEEE-754 multiplication. -/
def mul : JsNum → JsNum → JsNum
  | nan, _ => nan
  | _, nan => nan
  | posInf, posInf => posInf
  | posInf, negInf => negInf
  | negInf, posInf => negInf
  | negInf, negInf => posInf
  | posInf, num b => if b = 0 then nan else if 0 < b then posInf else negInf
  | num a, posInf => if a = 0 then nan else if 0 < a then posInf else negInf
  | negInf, num b => if b = 0 then nan else if 0 < b then negInf else posInf
  | num a, negInf => if a = 0 then nan else if 0 < a then negInf else posInf
  | num a, num b => num (a * b)

/-- IEEE-754 division: in particular `0 / 0 = NaN` and `x / 0 = ±Infinity`
for `x ≠ 0`, exactly the degeneracies the specification worries about. -/
def div : JsNum → JsNum → JsNum
  | nan, _ => nan
  | _, nan => nan
  | posInf, posInf => nan
  | posInf, negInf => nan
  | negInf, posInf => nan
  | negInf, negInf => nan
  | posInf, num b => if 0 ≤ b then posInf else negInf
  | negInf, num b => if 0 ≤ b then negInf else posInf
  | num _, posInf => num 0
  | num _, negInf => num 0
  | num a, num b =>
      if b = 0 then (if a = 0 then nan else if 0 < a then posInf else negInf)
      else num (a / b)

instance : Add JsNum := ⟨add⟩
instance : Neg JsNum := ⟨neg⟩
instance : Sub JsNum := ⟨sub⟩
instance : Mul JsNum := ⟨mul⟩
instance : Div JsNum := ⟨div⟩

/-- A `JsNum` is a valid drawing coordinate when it is finite. -/
def isFinite : JsNum → Bool
  | num _ => true
  | _ => false

end JsNum

/-- One XP transaction record (`t.createdAt`, `t.amount`, `t.object?.name`).
`createdAt` is the millisecond timestamp `new Date(t.createdAt).getTime()`. -/
structure Transaction where
  createdAt : ℤ
  amount : ℤ
  objectName : Option String
deriving DecidableEq

/-- The DOM container element: only its `clientWidth` matters to layout. -/
structure Container where
  clientWidth : ℚ
deriving DecidableEq

/-- Audit data (`auditData.totalUp`, `auditData.totalDown`); fields may be
absent (`undefined`), defaulted by `|| 0` at use sites. -/
structure AuditData where
  totalUp : Option ℚ
  totalDown : Option ℚ
deriving DecidableEq

/-- One project result record; `grade` is `null`/`undefined` or a number. -/
structure Result where
  grade : Option ℚ
deriving DecidableEq

/-- A thrown JavaScript error. -/
inductive JsError where
  | typeError : String → JsError
deriving DecidableEq

/-- The `TypeError` thrown by `container.innerHTML = ...` when
`document.getElementById` returned `null`. -/
def nullAssign : JsError := JsError.typeError "Cannot set properties of null"

/-- Outcome of a render call that did not throw: the placeholder message the
guard wrote into the container, or the chart branch's drawing payload. -/
inductive RenderOut (α : Type) where
  | placeholder : String → RenderOut α
  | chart : α → RenderOut α
deriving DecidableEq

/-- Placeholder text of `createXPProgressGraph` (markup elided). -/
def noXPMsg : String := "No XP data available"

/-- Placeholder text of `createXPByProjectGraph` (markup elided). -/
def noProjectMsg : String := "No project data available"

/-- Placeholder text of `createAuditRatioGraph` (markup elided). -/
def noAuditMsg : String := "No audit data available"

/-- Placeholder text of `createPassFailGraph` (markup elided). -/
def noResultsMsg : String := "No results data available"

/-! ### XP progress line chart (`createXPProgressGraph`, graphs.js lines 11-233) -/

/-- `margin = { top: 20, right: 30, bottom: 60, left: 80 }`, `height = 350`. -/
def marginTop : ℚ := 20

/-- Right margin of the line chart. -/
def marginRight : ℚ := 30

/-- Bottom margin of the line chart. -/
def marginBottom : ℚ := 60

/-- Left margin of the line chart. -/
def marginLeft : ℚ := 80

/-- Fixed chart height. -/
def chartHeight : ℚ := 350

/-- `graphHeight = height - margin.top - margin.bottom`. -/
def graphHeight : ℚ := chartHeight - marginTop - marginBottom

/-- The running-sum data points: `cumulativeXP += t.amount` inside
`transactions.map`, keeping each point's date next to its cumulative XP. -/
def cumulativePoints : ℤ → List Transaction → List (ℤ × ℤ)
  | _, [] => []
  | acc, t :: ts => (t.createdAt, acc + t.amount) :: cumulativePoints (acc + t.amount) ts

/-- The cumulative-XP series of the data points (`d.xp` column). -/
def cumulativeSeries (transactions : List Transaction) : List ℤ :=
  (cumulativePoints 0 transactions).map Prod.snd

/-- `Math.max(...)` over a list; the code only applies it to the non-empty
`dataPoints`, so the `[]` default is never reached. -/
def listMax : List ℚ → ℚ
  | [] => 0
  | x :: xs => xs.foldl max x

/-- `xScale`: `margin.left + ((date - minDate) / (maxDate - minDate)) * graphWidth`.
The denominator is data-dependent and unguarded in the source. -/
def xScale (minDate maxDate graphWidth date : ℚ) : JsNum :=
  JsNum.num marginLeft +
    ((JsNum.num date - JsNum.num minDate) / (JsNum.num maxDate - JsNum.num minDate)) *
      JsNum.num graphWidth

/-- `yScale`: `height - margin.bottom - (xp / maxXP) * graphHeight`.
The denominator `maxXP` is data-dependent and unguarded in the source. -/
def yScale (maxXP xp : ℚ) : JsNum :=
  JsNum.num chartHeight - JsNum.num marginBottom -
    (JsNum.num xp / JsNum.num maxXP) * JsNum.num graphHeight

/-- The `TypeError` thrown by the x-axis-label loop on a single-point
dataset: `numXLabels = 1`, so `index = Math.floor(0 * 0 / 0) = NaN`,
`dataPoints[NaN]` is `undefined`, and `point.date` throws. -/
def undefinedPointAccess : JsError :=
  JsError.typeError "Cannot read properties of undefined"

/-- `createXPProgressGraph(containerId, transactions)`: the guard writes the
placeholder (throwing a `TypeError` when the container lookup returned
`null`). The x-axis-label loop runs before the area path, polyline and
circles: with `numXLabels = Math.min(5, dataPoints.length)` equal to 1 it
indexes `dataPoints[Math.floor(0 * 0 / 0)] = dataPoints[NaN]` and throws a
`TypeError` on `.date`; with two or more points its indices
`Math.floor(i * (len - 1) / (numXLabels - 1))` are in range and it does not
throw. The chart branch then carries the `(cx, cy)` coordinates of every
data point, the same coordinates used for the polyline, area path and
circles. -/
def createXPProgressGraph (container : Option Container)
    (transactions : Option (List Transaction)) :
    Except JsError (RenderOut (List (JsNum × JsNum))) :=
  match container, transactions with
  | none, _ => Except.error nullAssign
  | some _, none => Except.ok (RenderOut.placeholder noXPMsg)
  | some _, some [] => Except.ok (RenderOut.placeholder noXPMsg)
  | some c, some (t :: ts) =>
      let dataPoints := cumulativePoints 0 (t :: ts)
      let graphWidth := c.clientWidth - marginLeft - marginRight
      let maxXP := listMax (dataPoints.map (fun d => (d.2 : ℚ)))
      let minDate : ℚ := (t.createdAt : ℚ)
      let maxDate : ℚ := ((List.getLastD ts t).createdAt : ℚ)
      let numXLabels := min 5 dataPoints.length
      if numXLabels = 1 then Except.error undefinedPointAccess
      else
        Except.ok (RenderOut.chart
          (dataPoints.map (fun d =>
            (xScale minDate maxDate graphWidth (d.1 : ℚ), yScale maxXP (d.2 : ℚ)))))

/-- `calculateTotalXP(transactions)`: `reduce((sum, t) => sum + t.amount, 0)`. -/
def calculateTotalXP (transactions : List Transaction) : ℤ :=
  transactions.foldl (fun sum t => sum + t.amount) 0

/-! ### XP by project bar chart (`createXPByProjectGraph`, graphs.js lines 240-368) -/

/-- `t.object?.name || 'Unknown'`: an absent nested name, or the empty string
(falsy in JavaScript), both default to the literal `Unknown`. -/
def txLabel (t : Transaction) : String :=
  match t.objectName with
  | none => "Unknown"
  | some s => if s = "" then "Unknown" else s

/-- `projectXP[name] = (projectXP[name] || 0) + t.amount` on a plain object:
the association list keeps first-insertion key order, updating in place. -/
def addToGroups : List (String × ℤ) → String → ℤ → List (String × ℤ)
  | [], name, amt => [(name, amt)]
  | (k, v) :: rest, name, amt =>
      if k = name then (k, v + amt) :: rest
      else (k, v) :: addToGroups rest name amt

/-- The aggregated per-project totals, in first-insertion order
(`Object.entries(projectXP)`). -/
def projectXP (transactions : List Transaction) : List (String × ℤ) :=
  transactions.foldl (fun acc t => addToGroups acc (txLabel t) t.amount) []

/-- Canonical decimal digit strings: non-empty, all digits, and no leading
zero except for the string `0` itself. -/
def isCanonicalDigits : List Char → Bool
  | [] => false
  | ['0'] => true
  | c :: cs => c.isDigit && decide (c ≠ '0') && cs.all Char.isDigit

/-- Numeric value of a digit string (most significant digit first). -/
def digitsToNat : List Char → ℕ → ℕ
  | [], acc => acc
  | c :: cs, acc => digitsToNat cs (10 * acc + (c.toNat - 48))

/-- An ECMAScript array-index key: a canonical decimal string whose numeric
value is below `2 ^ 32 - 1`. `Object.entries` enumerates such keys first,
in ascending numeric order, before the remaining keys in insertion order. -/
def arrayIndexOf (s : String) : Option ℕ :=
  if isCanonicalDigits s.data then
    let n := digitsToNat s.data 0
    if n < 4294967295 then some n else none
  else none

/-- Numeric value used to order array-index keys (0 for other keys, which
never enter the numerically sorted block). -/
def entriesKeyIdx (p : String × ℤ) : ℕ := (arrayIndexOf p.1).getD 0

/-- Ascending numeric order on array-index entries. -/
def entriesLE (a b : String × ℤ) : Prop := entriesKeyIdx a ≤ entriesKeyIdx b

instance : DecidableRel entriesLE := fun a b => Nat.decLe (entriesKeyIdx a) (entriesKeyIdx b)

/-- `Object.entries` enumeration order on an insertion-ordered association
list: array-index keys first in ascending numeric order, then the remaining
keys in insertion order. -/
def jsEntriesOrder (groups : List (String × ℤ)) : List (String × ℤ) :=
  List.insertionSort entriesLE (groups.filter (fun p => (arrayIndexOf p.1).isSome)) ++
    groups.filter (fun p => !(arrayIndexOf p.1).isSome)

/-- `Object.entries(projectXP)`: the per-project totals in JavaScript
property-enumeration order. -/
def projectXPEntries (transactions : List Transaction) : List (String × ℤ) :=
  jsEntriesOrder (projectXP transactions)

/-- The sort order of the comparator `(a, b) => b[1] - a[1]`: `a` precedes
`b` exactly when `b`'s total is at most `a`'s (descending by total). -/
def xpGE (a b : String × ℤ) : Prop := b.2 ≤ a.2

instance : DecidableRel xpGE := fun a b => Int.decLe b.2 a.2

instance : IsTotal (String × ℤ) xpGE := ⟨fun a b => le_total b.2 a.2⟩

instance : IsTrans (String × ℤ) xpGE := ⟨fun _ _ _ hab hbc => le_trans hbc hab⟩

/-- `Object.entries(projectXP).sort((a, b) => b[1] - a[1]).slice(0, 15)`:
`Array.prototype.sort` is stable, and the unique stable descending result is
computed by insertion sort with the relation `xpGE`, applied to the entries
in property-enumeration order. -/
def sortedProjects (transactions : List Transaction) : List (String × ℤ) :=
  (List.insertionSort xpGE (projectXPEntries transactions)).take 15

/-- Sum of the totals of a list of project groups. -/
def sumTotals (groups : List (String × ℤ)) : ℤ :=
  (groups.map Prod.snd).sum

/-- `createXPByProjectGraph(containerId, transactions)`: guards, then the
chart branch displays the sorted top-15 project groups as bars. -/
def createXPByProjectGraph (container : Option Container)
    (transactions : Option (List Transaction)) :
    Except JsError (RenderOut (List (String × ℤ))) :=
  match container, transactions with
  | none, _ => Except.error nullAssign
  | some _, none => Except.ok (RenderOut.placeholder noProjectMsg)
  | some _, some [] => Except.ok (RenderOut.placeholder noProjectMsg)
  | some _, some (t :: ts) =>
      let sorted := sortedProjects (t :: ts)
      if sorted.length = 0 then Except.ok (RenderOut.placeholder noProjectMsg)
      else Except.ok (RenderOut.chart sorted)

/-! ### Audit ratio donut chart (`createAuditRatioGraph`, graphs.js lines 375-489) -/

/-- `const upAngle = (totalUp / total) * 360` with `total = totalUp + totalDown`. -/
def upAngle (totalUp totalDown : ℚ) : ℚ :=
  totalUp / (totalUp + totalDown) * 360

/-- `const downAngle = (totalDown / total) * 360`. -/
def downAngle (totalUp totalDown : ℚ) : ℚ :=
  totalDown / (totalUp + totalDown) * 360

/-- `createAuditRatioGraph(containerId, auditData)`: guards (missing
container throws, missing data or zero total yields the placeholder before
any division), then the chart branch carries the two computed arc spans. -/
def createAuditRatioGraph (container : Option Container)
    (auditData : Option AuditData) :
    Except JsError (RenderOut (ℚ × ℚ)) :=
  match container, auditData with
  | none, _ => Except.error nullAssign
  | some _, none => Except.ok (RenderOut.placeholder noAuditMsg)
  | some _, some ad =>
      let totalUp := ad.totalUp.getD 0
      let totalDown := ad.totalDown.getD 0
      let total := totalUp + totalDown
      if total = 0 then Except.ok (RenderOut.placeholder noAuditMsg)
      else Except.ok (RenderOut.chart (upAngle totalUp totalDown, downAngle totalUp totalDown))

/-! ### Pass/fail pie chart (`createPassFailGraph`, graphs.js lines 496-621)
    and `calculateSuccessRate` (profile module lines 88-104) -/

/-- `result.grade !== null && result.grade !== undefined`. -/
def gradeDefined (r : Result) : Bool := r.grade.isSome

/-- A result passes when its grade is defined and `grade >= 1`. -/
def passes (r : Result) : Bool :=
  match r.grade with
  | some g => decide (1 ≤ g)
  | none => false

/-- A result fails when its grade is defined and not `grade >= 1`. -/
def failsGrade (r : Result) : Bool :=
  match r.grade with
  | some g => decide (g < 1)
  | none => false

/-- `passCount` after the counting loop. -/
def countPass (results : List Result) : ℕ := results.countP passes

/-- `failCount` after the counting loop. -/
def countFail (results : List Result) : ℕ := results.countP failsGrade

/-- `totalCount`: number of results with a defined grade. -/
def countDefined (results : List Result) : ℕ := results.countP gradeDefined

/-- `const passAngle = (passCount / total) * 360`. -/
def passAngle (passCount failCount : ℕ) : ℚ :=
  (passCount : ℚ) / ((passCount : ℚ) + (failCount : ℚ)) * 360

/-- `const failAngle = (failCount / total) * 360`. -/
def failAngle (passCount failCount : ℕ) : ℚ :=
  (failCount : ℚ) / ((passCount : ℚ) + (failCount : ℚ)) * 360

/-- `createPassFailGraph(containerId, results)`: guards (missing container
throws; missing, empty, or all-undefined-grade input yields the placeholder
before any division), then the chart branch carries the two counts and the
two computed arc spans. -/
def createPassFailGraph (container : Option Container)
    (results : Option (List Result)) :
    Except JsError (RenderOut ((ℕ × ℕ) × (ℚ × ℚ))) :=
  match container, results with
  | none, _ => Except.error nullAssign
  | some _, none => Except.ok (RenderOut.placeholder noResultsMsg)
  | some _, some [] => Except.ok (RenderOut.placeholder noResultsMsg)
  | some _, some (r :: rs) =>
      let passCount := countPass (r :: rs)
      let failCount := countFail (r :: rs)
      let total := passCount + failCount
      if total = 0 then Except.ok (RenderOut.placeholder noResultsMsg)
      else Except.ok (RenderOut.chart
        ((passCount, failCount), (passAngle passCount failCount, failAngle passCount failCount)))

/-- `Math.round`: round half away from zero is round half up on the
non-negative values produced here. -/
def jsRound (q : ℚ) : ℤ := ⌊q + 1 / 2⌋

/-- `calculateSuccessRate(results)` from the profile module: `0` for missing
or empty input, else the rounded percentage of passes among defined grades,
`0` when no grade is defined. -/
def calculateSuccessRate (results : Option (List Result)) : ℤ :=
  match results with
  | none => 0
  | some [] => 0
  | some rs =>
      let totalCount := countDefined rs
      let passCount := countPass rs
      if 0 < totalCount then jsRound ((passCount : ℚ) / (totalCount : ℚ) * 100) else 0

/-! ### Shared slice geometry (graphs.js lines 628-677) -/

/-- `polarToCartesian(cx, cy, radius, angle)`: rotates by `-90` degrees so
that angle `0` points up, then applies cosine/sine. -/
noncomputable def polarToCartesian (cx cy radius angle : ℝ) : ℝ × ℝ :=
  let angleRad := (angle - 90) * Real.pi / 180
  (cx + radius * Real.cos angleRad, cy + radius * Real.sin angleRad)

/-- `endAngle - startAngle <= 180 ? '0' : '1'`, shared by both slice paths. -/
def largeArcFlag (startAngle endAngle : ℚ) : String :=
  if endAngle - startAngle ≤ 180 then "0" else "1"

/-- Geometry of a pie slice path. In the source the field `arcStart` is the
local `start` (the point at `endAngle`) and `arcEnd` is the local `end`
(the point at `startAngle`), the boundary where the slice's sweep begins. -/
structure PieSliceGeom where
  arcStart : ℝ × ℝ
  arcEnd : ℝ × ℝ
  largeArc : String

/-- `createPieSlice(cx, cy, radius, startAngle, endAngle)`. -/
noncomputable def createPieSlice (cx cy radius : ℝ) (startAngle endAngle : ℚ) :
    PieSliceGeom where
  arcStart := polarToCartesian cx cy radius (endAngle : ℝ)
  arcEnd := polarToCartesian cx cy radius (startAngle : ℝ)
  largeArc := largeArcFlag startAngle endAngle

/-- Geometry of a donut slice path; `outerEnd`/`innerEnd` are the source's
`end`/`innerEnd`, the boundary points on the slice's start-angle ray. -/
structure DonutSliceGeom where
  outerStart : ℝ × ℝ
  outerEnd : ℝ × ℝ
  innerStart : ℝ × ℝ
  innerEnd : ℝ × ℝ
  largeArc : String

/-- `createDonutSlice(cx, cy, radius, innerRadius, startAngle, endAngle)`. -/
noncomputable def createDonutSlice (cx cy radius innerRadius : ℝ)
    (startAngle endAngle : ℚ) : DonutSliceGeom where
  outerStart := polarToCartesian cx cy radius (endAngle : ℝ)
  outerEnd := polarToCartesian cx cy radius (startAngle : ℝ)
  innerStart := polarToCartesian cx cy innerRadius (endAngle : ℝ)
  innerEnd := polarToCartesian cx cy innerRadius (startAngle : ℝ)
  largeArc := largeArcFlag startAngle endAngle

/-- The first slice drawn by `createAuditRatioGraph`: `currentAngle` starts
at `-90` (the source comment reads `Start from top`) and the slice spans its
computed angle. -/
noncomputable def auditFirstSlice (cx cy radius innerRadius : ℝ)
    (angleSpan : ℚ) : DonutSliceGeom :=
  createDonutSlice cx cy radius innerRadius (-90) (-90 + angleSpan)

/-- The first slice drawn by `createPassFailGraph`: `currentAngle = -90`. -/
noncomputable def passFailFirstSlice (cx cy radius : ℝ) (angleSpan : ℚ) :
    PieSliceGeom :=
  createPieSlice cx cy radius (-90) (-90 + angleSpan)

/-! ### Computation lemmas for `JsNum` arithmetic -/

namespace JsNum

theorem num_add_num (a b : ℚ) : num a + num b = num (a + b) := rfl

theorem nan_add (x : JsNum) : nan + x = nan := by cases x <;> rfl

theorem add_nan (x : JsNum) : x + nan = nan := by cases x <;> rfl

theorem num_sub_num (a b : ℚ) : num a - num b = num (a - b) := by
  show num (a + -b) = num (a - b)
  rw [← sub_eq_add_neg]

theorem sub_nan (x : JsNum) : x - nan = nan := by cases x <;> rfl

theorem nan_sub (x : JsNum) : nan - x = nan := by cases x <;> rfl

theorem num_mul_num (a b : ℚ) : num a * num b = num (a * b) := rfl

theorem nan_mul (x : JsNum) : nan * x = nan := by cases x <;> rfl

theorem mul_nan (x : JsNum) : x * nan = nan := by cases x <;> rfl

theorem num_div_num (a : ℚ) {b : ℚ} (h : b ≠ 0) : num a / num b = num (a / b) := by
  show div (num a) (num b) = _
  simp [div, h]

theorem zero_div_zero : num 0 / num 0 = nan := by
  show div (num 0) (num 0) = nan
  simp [div]

end JsNum

/-! ### Helper lemmas: cumulative series (claim C4) -/

/-- Total of the `amount` column. -/
def sumAmounts (transactions : List Transaction) : ℤ :=
  (transactions.map Transaction.amount).sum

theorem foldl_amount_eq (transactions : List Transaction) :
    ∀ acc : ℤ, transactions.foldl (fun sum t => sum + t.amount) acc = acc + sumAmounts transactions := by
  induction transactions with
  | nil => intro acc; simp [sumAmounts]
  | cons t ts ih =>
      intro acc
      simp only [List.foldl_cons, ih, sumAmounts, List.map_cons, List.sum_cons]
      ring

theorem calculateTotalXP_eq_sumAmounts (transactions : List Transaction) :
    calculateTotalXP transactions = sumAmounts transactions := by
  simpa using foldl_amount_eq transactions 0

theorem cumulativePoints_getLast? (t : Transaction) (ts : List Transaction) :
    ∀ acc : ℤ, ((cumulativePoints acc (t :: ts)).map Prod.snd).getLast? =
      some (acc + sumAmounts (t :: ts)) := by
  induction ts generalizing t with
  | nil => intro acc; simp [cumulativePoints, sumAmounts]
  | cons u us ih =>
      intro acc
      have h := ih u (acc + t.amount)
      simp only [cumulativePoints, List.map_cons] at h ⊢
      rw [List.getLast?_cons_cons, h]
      simp only [sumAmounts, List.map_cons, List.sum_cons]
      congr 1
      ring

theorem cumulativePoints_chain (transactions : List Transaction)
    (hnn : ∀ t ∈ transactions, 0 ≤ t.amount) :
    ∀ acc : ℤ, List.Chain' (· ≤ ·) ((cumulativePoints acc transactions).map Prod.snd) := by
  induction transactions with
  | nil => intro acc; simp [cumulativePoints]
  | cons t ts ih =>
      intro acc
      simp only [cumulativePoints, List.map_cons]
      refine List.chain'_cons'.mpr ⟨?_, ih (fun x hx => hnn x (List.mem_cons_of_mem _ hx)) (acc + t.amount)⟩
      intro y hy
      cases ts with
      | nil => simp [cumulativePoints] at hy
      | cons u us =>
          simp only [cumulativePoints, List.map_cons, List.head?_cons, Option.mem_def,
            Option.some.injEq] at hy
          have hu : 0 ≤ u.amount := hnn u (by simp)
          omega

/-! ### Helper lemmas: grouping, stable sort, top-15 (claim C3) -/

theorem filter_orderedInsert (v : ℤ) (p : String × ℤ) (l : List (String × ℤ)) :
    (List.orderedInsert xpGE p l).filter (fun q => q.2 = v) =
      if p.2 = v then p :: l.filter (fun q => q.2 = v)
      else l.filter (fun q => q.2 = v) := by
  induction l with
  | nil =>
      simp only [List.orderedInsert, List.filter]
      by_cases hp : p.2 = v <;> simp [hp]
  | cons q qs ih =>
      by_cases hq : xpGE p q
      · simp only [List.orderedInsert, if_pos hq]
        by_cases hp : p.2 = v <;> simp [List.filter, hp]
      · have hlt : p.2 < q.2 := lt_of_not_le hq
        simp only [List.orderedInsert, if_neg hq]
        by_cases hqv : q.2 = v
        · have hpv : p.2 ≠ v := by rw [← hqv]; exact ne_of_lt hlt
          simp [List.filter, hqv, hpv, ih]
        · by_cases hp : p.2 = v <;> simp [List.filter, hqv, hp, ih]

theorem filter_insertionSort (v : ℤ) (l : List (String × ℤ)) :
    (List.insertionSort xpGE l).filter (fun q => q.2 = v) =
      l.filter (fun q => q.2 = v) := by
  induction l with
  | nil => rfl
  | cons p ps ih =>
      simp only [List.insertionSort, filter_orderedInsert, ih]
      by_cases hp : p.2 = v <;> simp [List.filter, hp]

theorem prefix_filter {l m : List (String × ℤ)} (p : String × ℤ → Bool)
    (h : l <+: m) : l.filter p <+: m.filter p := by
  obtain ⟨t, rfl⟩ := h
  rw [List.filter_append]
  exact ⟨_, rfl⟩

theorem addToGroups_nonneg (acc : List (String × ℤ)) (name : String) (amt : ℤ)
    (hacc : ∀ p ∈ acc, 0 ≤ p.2) (hamt : 0 ≤ amt) :
    ∀ p ∈ addToGroups acc name amt, 0 ≤ p.2 := by
  induction acc with
  | nil =>
      intro p hp
      simp only [addToGroups, List.mem_singleton] at hp
      subst hp
      exact hamt
  | cons q qs ih =>
      intro p hp
      by_cases hk : q.1 = name
      · rw [show addToGroups (q :: qs) name amt = (q.1, q.2 + amt) :: qs by
          simp [addToGroups, hk]] at hp
        rcases List.mem_cons.mp hp with h | h
        · subst h
          have := hacc q (by simp)
          simpa using add_nonneg this hamt
        · exact hacc p (List.mem_cons_of_mem _ h)
      · rw [show addToGroups (q :: qs) name amt = q :: addToGroups qs name amt by
          simp [addToGroups, hk]] at hp
        rcases List.mem_cons.mp hp with h | h
        · subst h; exact hacc p (by simp)
        · exact ih (fun r hr => hacc r (List.mem_cons_of_mem _ hr)) p h

theorem projectXP_nonneg (transactions : List Transaction)
    (hnn : ∀ t ∈ transactions, 0 ≤ t.amount) :
    ∀ p ∈ projectXP transactions, 0 ≤ p.2 := by
  suffices h : ∀ acc : List (String × ℤ), (∀ p ∈ acc, 0 ≤ p.2) →
      ∀ p ∈ transactions.foldl (fun acc t => addToGroups acc (txLabel t) t.amount) acc, 0 ≤ p.2 by
    exact h [] (by simp)
  induction transactions with
  | nil => intro acc hacc; simpa using hacc
  | cons t ts ih =>
      intro acc hacc
      simp only [List.foldl_cons]
      exact ih (fun x hx => hnn x (List.mem_cons_of_mem _ hx))
        (addToGroups acc (txLabel t) t.amount)
        (addToGroups_nonneg acc (txLabel t) t.amount hacc (hnn t (by simp)))

theorem sumTotals_take_le (l : List (String × ℤ)) (n : ℕ)
    (h : ∀ p ∈ l, 0 ≤ p.2) : sumTotals (l.take n) ≤ sumTotals l := by
  have hsplit : l = l.take n ++ l.drop n := (List.take_append_drop n l).symm
  have : sumTotals l = sumTotals (l.take n) + sumTotals (l.drop n) := by
    rw [hsplit]
    simp [sumTotals]
  rw [this]
  have hdrop : 0 ≤ sumTotals (l.drop n) := by
    apply List.sum_nonneg
    intro x hx
    simp only [List.mem_map] at hx
    obtain ⟨p, hp, rfl⟩ := hx
    exact h p (List.mem_of_mem_drop hp)
  omega

theorem jsEntriesOrder_perm (groups : List (String × ℤ)) :
    List.Perm (jsEntriesOrder groups) groups := by
  unfold jsEntriesOrder
  refine List.Perm.trans (List.Perm.append_right _ ?_) (List.filter_append_perm _ groups)
  exact List.perm_insertionSort entriesLE _

theorem jsEntriesOrder_eq_of_no_index (groups : List (String × ℤ))
    (h : ∀ p ∈ groups, arrayIndexOf p.1 = none) :
    jsEntriesOrder groups = groups := by
  unfold jsEntriesOrder
  have h1 : groups.filter (fun p => (arrayIndexOf p.1).isSome) = [] := by
    rw [List.filter_eq_nil_iff]
    intro p hp
    simp [h p hp]
  have h2 : groups.filter (fun p => !(arrayIndexOf p.1).isSome) = groups := by
    rw [List.filter_eq_self]
    intro p hp
    simp [h p hp]
  rw [h1, h2]
  rfl

/-! ### Helper lemmas: pass/fail counting (claims C5, C10) -/

theorem countPass_add_countFail (results : List Result) :
    countPass results + countFail results = countDefined results := by
  induction results with
  | nil => rfl
  | cons r rs ih =>
      simp only [countPass, countFail, countDefined, List.countP_cons] at ih ⊢
      rcases hg : r.grade with _ | g
      · simp [passes, failsGrade, gradeDefined, hg, ih]
      · by_cases h1 : 1 ≤ g
        · have h2 : ¬ g < 1 := not_lt.mpr h1
          simp [passes, failsGrade, gradeDefined, hg, h1, h2]
          omega
        · have h2 : g < 1 := not_le.mp h1
          simp [passes, failsGrade, gradeDefined, hg, h1, h2]
          omega

theorem countPass_eq_zero_of_all_none (results : List Result)
    (h : ∀ r ∈ results, r.grade = none) : countPass results = 0 := by
  rw [countPass, List.countP_eq_zero]
  intro r hr
  simp [passes, h r hr]

theorem countFail_eq_zero_of_all_none (results : List Result)
    (h : ∀ r ∈ results, r.grade = none) : countFail results = 0 := by
  rw [countFail, List.countP_eq_zero]
  intro r hr
  simp [failsGrade, h r hr]

/-! ### Claim theorems -/

/-- Claim C4 (confirmed): for every non-empty chronological record list, the
cumulative-value series is non-decreasing whenever all amounts are
non-negative, and — unconditionally — its last element is the sum of all
amounts, the value `calculateTotalXP` reports. -/
theorem cumulativeSeries_monotone_last (transactions : List Transaction)
    (hne : transactions ≠ []) :
    ((∀ t ∈ transactions, 0 ≤ t.amount) →
      List.Chain' (· ≤ ·) (cumulativeSeries transactions)) ∧
      (cumulativeSeries transactions).getLast? = some (calculateTotalXP transactions) := by
  constructor
  · intro hnn
    exact cumulativePoints_chain transactions hnn 0
  · match transactions, hne with
    | t :: ts, _ =>
        rw [cumulativeSeries, cumulativePoints_getLast? t ts 0,
          calculateTotalXP_eq_sumAmounts]
        simp

/-- Witness for C4 at a concrete two-record list, discharging both the
non-emptiness hypothesis and the non-negativity hypothesis of the
monotonicity conjunct. -/
theorem cumulativeSeries_monotone_last_witness :
    ([⟨0, 5, none⟩, ⟨1, 3, none⟩] : List Transaction) ≠ [] ∧
      (∀ t ∈ ([⟨0, 5, none⟩, ⟨1, 3, none⟩] : List Transaction), 0 ≤ t.amount) ∧
      (List.Chain' (· ≤ ·) (cumulativeSeries [⟨0, 5, none⟩, ⟨1, 3, none⟩]) ∧
        (cumulativeSeries [⟨0, 5, none⟩, ⟨1, 3, none⟩]).getLast? =
          some (calculateTotalXP [⟨0, 5, none⟩, ⟨1, 3, none⟩])) :=
  ⟨by simp, by decide,
    (cumulativeSeries_monotone_last [⟨0, 5, none⟩, ⟨1, 3, none⟩] (by simp)).1 (by decide),
    (cumulativeSeries_monotone_last [⟨0, 5, none⟩, ⟨1, 3, none⟩] (by simp)).2⟩

/-- Claim C3, amended (corrected): on any non-empty record list the displayed
list has at most 15 groups, is sorted descending by total, and groups with
equal totals keep their `Object.entries` enumeration order (for each total,
filtering the displayed list yields a prefix of the same filter of the
entries enumeration); when no group label is an integer-like (array-index)
string — the usual case for project names — the enumeration order is the
order of first insertion, recovering the claim's stability statement; and
when every amount is non-negative — the hypothesis the counterexample
forces — the sum of displayed totals is at most the sum of all group
totals. -/
theorem sortedProjects_top15_sorted_stable (transactions : List Transaction)
    (hne : transactions ≠ []) :
    (sortedProjects transactions).length ≤ 15 ∧
      List.Sorted xpGE (sortedProjects transactions) ∧
      (∀ v : ℤ, (sortedProjects transactions).filter (fun q => q.2 = v) <+:
        (projectXPEntries transactions).filter (fun q => q.2 = v)) ∧
      ((∀ p ∈ projectXP transactions, arrayIndexOf p.1 = none) →
        projectXPEntries transactions = projectXP transactions) ∧
      ((∀ t ∈ transactions, 0 ≤ t.amount) →
        sumTotals (sortedProjects transactions) ≤ sumTotals (projectXP transactions)) := by
  refine ⟨List.length_take_le 15 _, ?_, ?_, ?_, ?_⟩
  · exact (List.sorted_insertionSort xpGE (projectXPEntries transactions)).sublist
      (List.take_sublist 15 _)
  · intro v
    have h1 : (sortedProjects transactions).filter (fun q => q.2 = v) <+:
        (List.insertionSort xpGE (projectXPEntries transactions)).filter (fun q => q.2 = v) :=
      prefix_filter _ (List.take_prefix 15 _)
    rwa [filter_insertionSort v] at h1
  · exact jsEntriesOrder_eq_of_no_index (projectXP transactions)
  · intro hnn
    have hperm : List.Perm (List.insertionSort xpGE (projectXPEntries transactions))
        (projectXP transactions) :=
      (List.perm_insertionSort xpGE _).trans (jsEntriesOrder_perm _)
    have hsum : sumTotals (List.insertionSort xpGE (projectXPEntries transactions)) =
        sumTotals (projectXP transactions) := by
      unfold sumTotals
      exact List.Perm.sum_eq (List.Perm.map _ hperm)
    have hmem : ∀ p ∈ List.insertionSort xpGE (projectXPEntries transactions), 0 ≤ p.2 := by
      intro p hp
      exact projectXP_nonneg transactions hnn p (hperm.mem_iff.mp hp)
    calc sumTotals (sortedProjects transactions)
        ≤ sumTotals (List.insertionSort xpGE (projectXPEntries transactions)) :=
          sumTotals_take_le _ 15 hmem
      _ = sumTotals (projectXP transactions) := hsum

/-- Witness for C3 at a concrete record list, discharging the
non-emptiness hypothesis and both inner hypotheses (no integer-like label;
non-negative amounts). -/
theorem sortedProjects_top15_sorted_stable_witness :
    ([⟨0, 2, some "a"⟩, ⟨1, 7, some "b"⟩] : List Transaction) ≠ [] ∧
      ((sortedProjects [⟨0, 2, some "a"⟩, ⟨1, 7, some "b"⟩]).length ≤ 15 ∧
        List.Sorted xpGE (sortedProjects [⟨0, 2, some "a"⟩, ⟨1, 7, some "b"⟩]) ∧
        (∀ v : ℤ,
          (sortedProjects [⟨0, 2, some "a"⟩, ⟨1, 7, some "b"⟩]).filter (fun q => q.2 = v) <+:
            (projectXPEntries [⟨0, 2, some "a"⟩, ⟨1, 7, some "b"⟩]).filter (fun q => q.2 = v)) ∧
        projectXPEntries [⟨0, 2, some "a"⟩, ⟨1, 7, some "b"⟩] =
          projectXP [⟨0, 2, some "a"⟩, ⟨1, 7, some "b"⟩] ∧
        sumTotals (sortedProjects [⟨0, 2, some "a"⟩, ⟨1, 7, some "b"⟩]) ≤
          sumTotals (projectXP [⟨0, 2, some "a"⟩, ⟨1, 7, some "b"⟩])) := by
  have h := sortedProjects_top15_sorted_stable [⟨0, 2, some "a"⟩, ⟨1, 7, some "b"⟩] (by simp)
  exact ⟨by simp, h.1, h.2.1, h.2.2.1, h.2.2.2.1 (by decide), h.2.2.2.2 (by decide)⟩

/-- Sixteen distinct project groups, the sixteenth with a negative total:
its group is dropped from the top 15, so the displayed sum exceeds the
overall sum. -/
def negTailTxs : List Transaction :=
  [⟨0, 1, some "p01"⟩, ⟨1, 1, some "p02"⟩, ⟨2, 1, some "p03"⟩, ⟨3, 1, some "p04"⟩,
   ⟨4, 1, some "p05"⟩, ⟨5, 1, some "p06"⟩, ⟨6, 1, some "p07"⟩, ⟨7, 1, some "p08"⟩,
   ⟨8, 1, some "p09"⟩, ⟨9, 1, some "p10"⟩, ⟨10, 1, some "p11"⟩, ⟨11, 1, some "p12"⟩,
   ⟨12, 1, some "p13"⟩, ⟨13, 1, some "p14"⟩, ⟨14, 1, some "p15"⟩, ⟨15, -1, some "p16"⟩]

/-- Counterexample to claim C3 as stated: on `negTailTxs` (non-empty, one
negative amount) the displayed top-15 sum is 15 while the sum of all group
totals is 14, so the claimed inequality fails without a non-negativity
hypothesis. -/
theorem sortedProjects_sum_counterexample :
    negTailTxs ≠ [] ∧
      ¬ sumTotals (sortedProjects negTailTxs) ≤ sumTotals (projectXP negTailTxs) := by
  constructor
  · simp [negTailTxs]
  · decide

/-- Claim C1 (code bug): the time-series renderer neither guards its
data-dependent denominators nor collapses degenerate scales to a constant.
A single-point dataset throws a `TypeError` in the x-axis-label loop before
any primitive is drawn (`dataPoints[Math.floor(0 * 0 / 0)].date`), rather
than collapsing the scale to a constant; a two-point dataset with equal
timestamps evaluates `(0 - 0) / (0 - 0) = NaN` in `xScale` and hands `NaN`
x-coordinates to the path and circle primitives; a dataset whose maximum
cumulative value is zero hands `NaN` y-coordinates from `yScale` to the
primitives, with no placeholder. -/
theorem xpProgress_unguarded_division_nan :
    createXPProgressGraph (some ⟨500⟩) (some [⟨0, 100, none⟩]) =
      Except.error undefinedPointAccess ∧
    createXPProgressGraph (some ⟨500⟩) (some [⟨0, 7, none⟩, ⟨0, 5, none⟩]) =
      Except.ok (RenderOut.chart
        [(JsNum.nan, JsNum.num (265 / 2)), (JsNum.nan, JsNum.num 20)]) ∧
    createXPProgressGraph (some ⟨500⟩) (some [⟨0, 0, none⟩, ⟨100, 0, none⟩]) =
      Except.ok (RenderOut.chart [(JsNum.num 80, JsNum.nan), (JsNum.num 470, JsNum.nan)]) ∧
    JsNum.nan.isFinite = false := by
  refine ⟨?_, ?_, ?_, rfl⟩
  · norm_num [createXPProgressGraph, cumulativePoints]
  · norm_num [createXPProgressGraph, cumulativePoints, listMax, xScale, yScale,
      marginLeft, marginRight, marginBottom, marginTop, chartHeight, graphHeight,
      JsNum.num_sub_num, JsNum.num_div_num, JsNum.num_mul_num, JsNum.num_add_num,
      JsNum.zero_div_zero, JsNum.nan_mul, JsNum.mul_nan, JsNum.add_nan, JsNum.nan_add,
      JsNum.sub_nan, JsNum.nan_sub]
  · norm_num [createXPProgressGraph, cumulativePoints, listMax, xScale, yScale,
      marginLeft, marginRight, marginBottom, marginTop, chartHeight, graphHeight,
      JsNum.num_sub_num, JsNum.num_div_num, JsNum.num_mul_num, JsNum.num_add_num,
      JsNum.zero_div_zero, JsNum.nan_mul, JsNum.mul_nan, JsNum.add_nan, JsNum.nan_add,
      JsNum.sub_nan, JsNum.nan_sub]

/-- Claim C2 (code bug): for the binary split (3, 1) at center (100, 100)
with radius 50, the boundary point where the first slice's sweep begins —
`polarToCartesian` at the start angle `-90` — is `(50, 100)`, the left-most
(9 o'clock) point of the circle, not the top-most point `(100, 50)` the
claim (and the source comment `Start from top`) describe: the `-90` start is
rotated a further `-90` degrees inside `polarToCartesian`. -/
theorem firstSlice_begins_at_left_not_top :
    (auditFirstSlice 100 100 50 30 (upAngle 3 1)).outerEnd = ((50 : ℝ), (100 : ℝ)) ∧
    (passFailFirstSlice 100 100 50 (passAngle 3 1)).arcEnd = ((50 : ℝ), (100 : ℝ)) ∧
    ((50 : ℝ), (100 : ℝ)) ≠ ((100 : ℝ), (100 : ℝ) - 50) := by
  have hpt : polarToCartesian 100 100 50 ((-90 : ℚ) : ℝ) = ((50 : ℝ), (100 : ℝ)) := by
    unfold polarToCartesian
    have h : (((-90 : ℚ) : ℝ) - 90) * Real.pi / 180 = -Real.pi := by push_cast; ring
    rw [h]
    simp [Real.cos_pi, Real.sin_pi]
    norm_num
  refine ⟨hpt, hpt, ?_⟩
  intro h
  have h1 : (50 : ℝ) = 100 := congrArg Prod.fst h
  norm_num at h1

/-- Shared helper: the pass/fail pie renders the placeholder whenever both
counts are zero (either the empty-list guard or the zero-total guard). -/
theorem passFailGraph_placeholder_of_zero (c : Container) (results : List Result)
    (h : countPass results + countFail results = 0) :
    createPassFailGraph (some c) (some results) =
      Except.ok (RenderOut.placeholder noResultsMsg) := by
  cases results with
  | nil => rfl
  | cons r rs =>
      simp only [createPassFailGraph]
      rw [if_pos h]

/-- Claim C5 (confirmed): for both binary-split renderers, when the two
input values sum to zero the call returns the empty-state placeholder; in
the embedding the arc-angle divisions occur only in the other branch, so no
division is performed. -/
theorem zeroTotal_placeholder (c : Container) (ad : AuditData) (results : List Result)
    (h1 : ad.totalUp.getD 0 + ad.totalDown.getD 0 = 0)
    (h2 : countPass results + countFail results = 0) :
    createAuditRatioGraph (some c) (some ad) =
      Except.ok (RenderOut.placeholder noAuditMsg) ∧
    createPassFailGraph (some c) (some results) =
      Except.ok (RenderOut.placeholder noResultsMsg) := by
  constructor
  · simp only [createAuditRatioGraph]
    rw [if_pos h1]
  · exact passFailGraph_placeholder_of_zero c results h2

/-- Witness for C5 at audit totals (0, 0) and an all-null result list. -/
theorem zeroTotal_placeholder_witness :
    ((⟨some 0, some 0⟩ : AuditData).totalUp.getD 0 +
        (⟨some 0, some 0⟩ : AuditData).totalDown.getD 0 = 0) ∧
      (countPass [⟨none⟩] + countFail [⟨none⟩] = 0) ∧
      (createAuditRatioGraph (some ⟨500⟩) (some ⟨some 0, some 0⟩) =
          Except.ok (RenderOut.placeholder noAuditMsg) ∧
        createPassFailGraph (some ⟨500⟩) (some [⟨none⟩]) =
          Except.ok (RenderOut.placeholder noResultsMsg)) :=
  ⟨by norm_num, rfl, zeroTotal_placeholder ⟨500⟩ ⟨some 0, some 0⟩ [⟨none⟩] (by norm_num) rfl⟩

/-- Claim C6 (confirmed): for the binary split (3, 1) the two arc spans are
exactly 270 and 90 degrees — summing to 360 and in ratio 3:1 — in both the
donut (audit) and pie (pass/fail) variants, and in general each span is the
value's share of the total times 360, which is the defining formula. -/
theorem binarySplit_angles_three_one :
    upAngle 3 1 = 270 ∧ downAngle 3 1 = 90 ∧
    upAngle 3 1 + downAngle 3 1 = 360 ∧ upAngle 3 1 = 3 * downAngle 3 1 ∧
    createAuditRatioGraph (some ⟨500⟩) (some ⟨some 3, some 1⟩) =
      Except.ok (RenderOut.chart (270, 90)) ∧
    createPassFailGraph (some ⟨500⟩) (some [⟨some 1⟩, ⟨some 2⟩, ⟨some 1⟩, ⟨some 0⟩]) =
      Except.ok (RenderOut.chart ((3, 1), (270, 90))) ∧
    (∀ totalUp totalDown : ℚ,
      upAngle totalUp totalDown = totalUp / (totalUp + totalDown) * 360 ∧
      downAngle totalUp totalDown = totalDown / (totalUp + totalDown) * 360) := by
  refine ⟨by norm_num [upAngle], by norm_num [downAngle], by norm_num [upAngle, downAngle],
    by norm_num [upAngle, downAngle], ?_, ?_, fun _ _ => ⟨rfl, rfl⟩⟩
  · norm_num [createAuditRatioGraph, upAngle, downAngle]
  · have hp : countPass [⟨some 1⟩, ⟨some 2⟩, ⟨some 1⟩, ⟨some 0⟩] = 3 := rfl
    have hf : countFail [⟨some 1⟩, ⟨some 2⟩, ⟨some 1⟩, ⟨some 0⟩] = 1 := rfl
    norm_num [createPassFailGraph, passAngle, failAngle, hp, hf]

/-- Claim C7 (confirmed): the shared large-arc flag of both slice paths is
`1` exactly when the angular span exceeds 180 degrees and `0` exactly when
it is at most 180 degrees. -/
theorem largeArc_iff_span_gt_180 : ∀ startAngle endAngle : ℚ,
    (largeArcFlag startAngle endAngle = "1" ↔ 180 < endAngle - startAngle) ∧
    (largeArcFlag startAngle endAngle = "0" ↔ endAngle - startAngle ≤ 180) ∧
    (∀ cx cy radius innerRadius : ℝ,
      (createDonutSlice cx cy radius innerRadius startAngle endAngle).largeArc =
        largeArcFlag startAngle endAngle) ∧
    (∀ cx cy radius : ℝ,
      (createPieSlice cx cy radius startAngle endAngle).largeArc =
        largeArcFlag startAngle endAngle) := by
  intro s e
  by_cases h : e - s ≤ 180
  · have hflag : largeArcFlag s e = "0" := by unfold largeArcFlag; rw [if_pos h]
    exact ⟨by rw [hflag]; exact iff_of_false (by decide) (not_lt.mpr h),
      by rw [hflag]; exact iff_of_true rfl h,
      fun _ _ _ _ => rfl, fun _ _ _ => rfl⟩
  · have hflag : largeArcFlag s e = "1" := by unfold largeArcFlag; rw [if_neg h]
    exact ⟨by rw [hflag]; exact iff_of_true rfl (lt_of_not_le h),
      by rw [hflag]; exact iff_of_false (by decide) h,
      fun _ _ _ _ => rfl, fun _ _ _ => rfl⟩

/-- Claim C8 (confirmed): for every center and non-negative radius,
`polarToCartesian` at angle 0 gives the top-most point of the circle,
`(cx, cy - radius)`. -/
theorem polarToCartesian_angle_zero_top (cx cy radius : ℝ) (h : 0 ≤ radius) :
    polarToCartesian cx cy radius 0 = (cx, cy - radius) := by
  unfold polarToCartesian
  have hrad : ((0 : ℝ) - 90) * Real.pi / 180 = -(Real.pi / 2) := by ring
  rw [hrad]
  simp [Real.cos_pi_div_two, Real.sin_pi_div_two]
  ring

/-- Witness for C8 at center (1, 2) and radius 3. -/
theorem polarToCartesian_angle_zero_top_witness :
    (0 : ℝ) ≤ 3 ∧ polarToCartesian 1 2 3 0 = (1, 2 - 3) :=
  ⟨by norm_num, polarToCartesian_angle_zero_top 1 2 3 (by norm_num)⟩

/-- Claim C9 (confirmed): each of the four render entry points throws a
`TypeError` (assigning `innerHTML` on `null`) whenever the container lookup
returned `null`, for every data argument; the empty-input placeholder is
produced only when the container exists (with a missing container the result
is the error, never a placeholder). -/
theorem missing_container_throws :
    (∀ transactions, createXPProgressGraph none transactions = Except.error nullAssign) ∧
    (∀ transactions, createXPByProjectGraph none transactions = Except.error nullAssign) ∧
    (∀ auditData, createAuditRatioGraph none auditData = Except.error nullAssign) ∧
    (∀ results, createPassFailGraph none results = Except.error nullAssign) ∧
    (∀ c : Container, createXPProgressGraph (some c) (some []) =
      Except.ok (RenderOut.placeholder noXPMsg)) ∧
    (∀ c : Container, createXPByProjectGraph (some c) (some []) =
      Except.ok (RenderOut.placeholder noProjectMsg)) ∧
    (∀ c : Container, createAuditRatioGraph (some c) none =
      Except.ok (RenderOut.placeholder noAuditMsg)) ∧
    (∀ c : Container, createPassFailGraph (some c) (some []) =
      Except.ok (RenderOut.placeholder noResultsMsg)) :=
  ⟨fun _ => rfl, fun _ => rfl, fun _ => rfl, fun _ => rfl,
    fun _ => rfl, fun _ => rfl, fun _ => rfl, fun _ => rfl⟩

/-- Claim C10 (confirmed): null/undefined grades are excluded from both
counts, so pass + fail equals the number of defined grades; a record passes
exactly when its grade is defined and at least 1; and a non-empty list whose
grades are all null/undefined yields the empty-state placeholder from the
pie chart and a 0% success rate, with no division. -/
theorem grade_filtering_and_all_null (results : List Result)
    (hne : results ≠ []) (hall : ∀ r ∈ results, r.grade = none) :
    (∀ rs : List Result, countPass rs + countFail rs = countDefined rs) ∧
    (∀ r : Result, passes r = true ↔ ∃ g, r.grade = some g ∧ 1 ≤ g) ∧
    (∀ c : Container, createPassFailGraph (some c) (some results) =
      Except.ok (RenderOut.placeholder noResultsMsg)) ∧
    calculateSuccessRate (some results) = 0 := by
  have hzero : countPass results + countFail results = 0 := by
    rw [countPass_eq_zero_of_all_none results hall, countFail_eq_zero_of_all_none results hall]
  refine ⟨countPass_add_countFail, ?_, ?_, ?_⟩
  · intro r
    rcases hg : r.grade with _ | g
    · simp [passes, hg]
    · by_cases h1 : 1 ≤ g <;> simp [passes, hg, h1]
  · intro c
    exact passFailGraph_placeholder_of_zero c results hzero
  · match results, hne with
    | r :: rs, _ =>
        have hdef : countDefined (r :: rs) = 0 := by
          have := countPass_add_countFail (r :: rs)
          omega
        simp only [calculateSuccessRate, hdef]
        norm_num

/-- Witness for C10 at the single-record all-null list. -/
theorem grade_filtering_and_all_null_witness :
    ([⟨none⟩] : List Result) ≠ [] ∧
      (∀ r ∈ ([⟨none⟩] : List Result), r.grade = none) ∧
      ((∀ rs : List Result, countPass rs + countFail rs = countDefined rs) ∧
        (∀ r : Result, passes r = true ↔ ∃ g, r.grade = some g ∧ 1 ≤ g) ∧
        (∀ c : Container, createPassFailGraph (some c) (some [⟨none⟩]) =
          Except.ok (RenderOut.placeholder noResultsMsg)) ∧
        calculateSuccessRate (some [⟨none⟩]) = 0) :=
  ⟨by simp, by simp,
    grade_filtering_and_all_null [⟨none⟩] (by simp) (by simp)⟩

end GraphsSpec
